import Mathlib

/-!
# psicashlib: the JSON datastore and the typed record layer over it

A shallow embedding of `psicashlib/datastore.cpp`.

* `Datastore` is the C++ class: the document `json_` and the path `file_path_`.
* Every member function takes the datastore and the file system and gives back
  a `Step`: what the call produced (a returned value, or an exception that left
  the function), the datastore afterwards and the file system afterwards.
* The JSON library, the stream classes and `error.h` are not part of the two
  source files.  The container operations of the JSON value (`update`, lookup)
  are modelled below; its text reader and writer are a parameter (`JsonLib`),
  so that the statements hold for whatever these do; `nlohmann` is one concrete
  reader and writer, used to evaluate the functions on concrete files.
* A `std::string` is a `String` whose characters are the bytes of the string.
-/

namespace Psicash

/-! ## JSON values -/

/-- A value of `nlohmann::json`.  A `number_float` is kept as the decimal text
it stands for, no operation here computes with it. -/
inductive Json where
  | null
  | bool (b : Bool)
  | int (n : Int)
  | float (text : String)
  | str (s : String)
  | arr (items : List Json)
  | obj (members : List (String × Json))
  deriving Repr, Inhabited

namespace Json

/-- The `is_object()` test. -/
def is_object : Json → Bool
  | obj _ => true
  | _ => false

/-- The `is_null()` test. -/
def is_null : Json → Bool
  | null => true
  | _ => false

/-- The `type_name()` accessor, used in the text of type errors. -/
def type_name : Json → String
  | null => "null"
  | bool _ => "boolean"
  | int _ => "number"
  | float _ => "number"
  | str _ => "string"
  | arr _ => "array"
  | obj _ => "object"

end Json

/-- Order of two byte strings under `std::less<std::string>`: lexicographic on
the bytes. -/
def bytesLt : List Char → List Char → Bool
  | _, [] => false
  | [], _ :: _ => true
  | a :: as, b :: bs =>
    if a.toNat < b.toNat then true
    else if b.toNat < a.toNat then false
    else bytesLt as bs

/-- Key order of the `std::map` behind a JSON object. -/
def keyLt (a b : String) : Bool := bytesLt a.toList b.toList

/-- The lookup `find(key)` in the members of an object. -/
def objFind (k : String) : List (String × Json) → Option Json
  | [] => none
  | (k0, v0) :: rest => if k0 = k then some v0 else objFind k rest

/-- The assignment `object[key] = value` on the members of an object: the value
under an existing key is replaced, a new key is put at its place in key
order. -/
def objSet (k : String) (v : Json) : List (String × Json) → List (String × Json)
  | [] => [(k, v)]
  | (k0, v0) :: rest =>
    if k0 = k then (k, v) :: rest
    else if keyLt k k0 then (k, v) :: (k0, v0) :: rest
    else (k0, v0) :: objSet k v rest

/-- The loop of `update`: every member of the argument is assigned, in order. -/
def objUpdate (m : List (String × Json)) (n : List (String × Json)) : List (String × Json) :=
  n.foldl (fun acc kv => objSet kv.1 kv.2 acc) m

namespace Json

/-- The member under a key, when the value is an object having it. -/
def find (j : Json) (k : String) : Option Json :=
  match j with
  | obj m => objFind k m
  | _ => none

/-- Modelled from the spec: `json::update` of vendor/nlohmann/json.hpp, which is
not among the sources.  "Each top-level key in `partial_document` overwrites the
corresponding top-level key in the owned document (replacement, not recursive
merging of nested arrays/objects within that key); keys not present in
`partial_document` are left untouched."  As in the library, a null target first
becomes the empty object, and a target or an argument that is not an object
raises `type_error` 312.  The result is the target afterwards and the exception
raised, if any. -/
def update (self j : Json) : Json × Option String :=
  let self1 := if self.is_null then obj [] else self
  match self1, j with
  | obj m, obj n => (obj (objUpdate m n), none)
  | obj m, _ => (obj m, some ("cannot use update() with " ++ j.type_name))
  | _, _ => (self1, some ("cannot use update() with " ++ self1.type_name))

end Json

/-! ## Errors -/

/-- Modelled from the spec: the `Error` value of error.h, which is not among the
sources.  It is either the non-error `nullerr` or an error carrying its
messages, the latest first. -/
inductive Error where
  | nullerr
  | error (stack : List String)
  deriving Repr, DecidableEq, Inhabited

/-- The conversion of an `Error` to `bool`: true for an error. -/
def Error.isError : Error → Bool
  | .nullerr => false
  | .error _ => true

/-- Modelled from the spec: the macro `MakeError` of error.h, a new error with
one message. -/
def MakeError (msg : String) : Error := .error [msg]

/-- Modelled from the spec: the macro `WrapError` of error.h.  A non-error stays
a non-error ("first run ... is not an error"), an error gets one more
message. -/
def WrapError (e : Error) (msg : String) : Error :=
  match e with
  | .nullerr => .nullerr
  | .error st => .error (msg :: st)

/-- Modelled from the spec: the macro `PassError` of error.h, "propagating its
error unchanged". -/
def PassError (e : Error) : Error := e

/-- The helper `utils::Stringer` at its two uses here: a text followed by the
decimal form of `errno`. -/
def Stringer (s : String) (n : Int) : String := s ++ toString n

/-- What a call produced: it returned a value, or an exception left it. -/
inductive Outcome (α : Type) where
  | ret (a : α)
  | threw (what : String)
  deriving Repr, DecidableEq

/-- The outcome with a function applied to the returned value. -/
def Outcome.map {α β : Type} (f : α → β) : Outcome α → Outcome β
  | .ret a => .ret (f a)
  | .threw w => .threw w

/-- The call returned the non-error. -/
def Outcome.succeeded : Outcome Error → Bool
  | .ret e => !e.isError
  | .threw _ => false

/-- The call returned an error value. -/
def Outcome.failed : Outcome Error → Bool
  | .ret e => e.isError
  | .threw _ => false

/-! ## Streams and the file system -/

/-- The state bits of a stream, `std::ios_base::iostate`. -/
structure iostate where
  badbit : Bool := false
  eofbit : Bool := false
  failbit : Bool := false
  deriving Repr, DecidableEq

/-- The member `fail()`: failbit or badbit is set. -/
def iostate.fail (s : iostate) : Bool := s.failbit || s.badbit

/-- The member `good()`: no bit is set. -/
def iostate.good (s : iostate) : Bool := !(s.badbit || s.eofbit || s.failbit)

/-- The file system as the datastore meets it.  `files` gives the bytes of the
file at a path, if there is one.  The rest is what the platform answers:
`readFault` is the state an input stream is in after opening an existing file
(no bit set when all is well), `opensForWrite` tells whether an output stream
opens (creating or truncating the file), `lands` gives the bytes that reach the
file out of those inserted into an open output stream, and `errno` is the
platform error code. -/
structure FileSys where
  files : String → Option String
  readFault : String → iostate
  opensForWrite : String → Bool
  lands : String → String → String
  errno : Int

/-- The state of an `ifstream` after `open(path, ios::binary)`: opening a file
that is not there sets failbit. -/
def FileSys.openIn (fs : FileSys) (path : String) : iostate :=
  match fs.files path with
  | none => { failbit := true }
  | some _ => fs.readFault path

/-- The bytes an input stream on the path delivers. -/
def FileSys.bytes (fs : FileSys) (path : String) : String :=
  (fs.files path).getD ""

/-- The file system with the file at `path` holding `text`. -/
def FileSys.put (fs : FileSys) (path : String) (text : String) : FileSys :=
  { fs with files := fun p => if p = path then some text else fs.files p }

/-- The text side of the JSON library.  `dump` is `json::dump()`: the text, or
nothing when it raises.  `write` is `operator<<` on a stream: the text it
inserts, or, when it raises, the text inserted before that.  `read` is
`operator>>` on a stream holding the given bytes: the value read, or, when it
raises, the value the target is left with. -/
structure JsonLib where
  dump : Json → Option String
  write : Json → Except String String
  read : String → Except Json Json

/-! ## A concrete reader and writer of JSON text

The text format as the library writes and reads it: compact output with keys in
map order and strings checked for UTF-8, input as one value after optional white
space with anything after the value left unread.  Numbers with a fraction or an
exponent, and integers outside the 64-bit ranges, become a `float` carrying
their text. -/

/-- Progress inside a UTF-8 sequence: how many bytes are still due and the range
the next one has to be in. -/
structure Utf8 where
  due : Nat
  lo : Nat
  hi : Nat

/-- Between two characters. -/
def Utf8.start : Utf8 := { due := 0, lo := 0, hi := 0 }

/-- One byte more of a well-formed UTF-8 text, or nothing when the byte is not
allowed here. -/
def Utf8.next (st : Utf8) (c : Char) : Option Utf8 :=
  let b := c.toNat
  if st.due = 0 then
    if b ≤ 0x7F then some Utf8.start
    else if 0xC2 ≤ b ∧ b ≤ 0xDF then some { due := 1, lo := 0x80, hi := 0xBF }
    else if b = 0xE0 then some { due := 2, lo := 0xA0, hi := 0xBF }
    else if b = 0xED then some { due := 2, lo := 0x80, hi := 0x9F }
    else if 0xE1 ≤ b ∧ b ≤ 0xEF then some { due := 2, lo := 0x80, hi := 0xBF }
    else if b = 0xF0 then some { due := 3, lo := 0x90, hi := 0xBF }
    else if 0xF1 ≤ b ∧ b ≤ 0xF3 then some { due := 3, lo := 0x80, hi := 0xBF }
    else if b = 0xF4 then some { due := 3, lo := 0x80, hi := 0x8F }
    else none
  else if st.lo ≤ b ∧ b ≤ st.hi then some { due := st.due - 1, lo := 0x80, hi := 0xBF }
  else none

/-- A hexadecimal digit, lower case. -/
def hexDigit (n : Nat) : Char :=
  if n < 10 then Char.ofNat (48 + n) else Char.ofNat (87 + n)

/-- How the writer puts one ASCII byte of a string. -/
def escapeByte (c : Char) : List Char :=
  let b := c.toNat
  if b = 0x08 then ['\\', 'b']
  else if b = 0x09 then ['\\', 't']
  else if b = 0x0A then ['\\', 'n']
  else if b = 0x0C then ['\\', 'f']
  else if b = 0x0D then ['\\', 'r']
  else if b = 0x22 then ['\\', '"']
  else if b = 0x5C then ['\\', '\\']
  else if b ≤ 0x1F then ['\\', 'u', '0', '0', hexDigit (b / 16), hexDigit (b % 16)]
  else [c]

/-- The bytes of a string as the writer puts them between the quotes; nothing
when the string is not UTF-8 (`type_error` 316). -/
def dumpEscaped : Utf8 → List Char → Option (List Char)
  | st, [] => if st.due = 0 then some [] else none
  | st, c :: cs =>
    match st.next c with
    | none => none
    | some st1 =>
      match dumpEscaped st1 cs with
      | none => none
      | some out => some ((if st.due = 0 ∧ c.toNat ≤ 0x7F then escapeByte c else [c]) ++ out)

/-- A string between quotes. -/
def dumpString (s : String) : Option (List Char) :=
  (dumpEscaped Utf8.start s.toList).map (fun out => '"' :: out ++ ['"'])

mutual
/-- The compact text of a value; nothing when a string in it is not UTF-8. -/
def dumpValue : Json → Option (List Char)
  | .null => some "null".toList
  | .bool true => some "true".toList
  | .bool false => some "false".toList
  | .int n => some (toString n).toList
  | .float text => some text.toList
  | .str s => dumpString s
  | .arr items => (dumpItems items).map (fun out => '[' :: out ++ [']'])
  | .obj members => (dumpMembers members).map (fun out => '\x7b' :: out ++ ['\x7d'])
/-- The items of an array, separated by commas. -/
def dumpItems : List Json → Option (List Char)
  | [] => some []
  | [v] => dumpValue v
  | v :: w :: rest =>
    match dumpValue v, dumpItems (w :: rest) with
    | some a, some b => some (a ++ ',' :: b)
    | _, _ => none
/-- The members of an object, separated by commas. -/
def dumpMembers : List (String × Json) → Option (List Char)
  | [] => some []
  | [(k, v)] =>
    match dumpString k, dumpValue v with
    | some a, some b => some (a ++ ':' :: b)
    | _, _ => none
  | (k, v) :: m :: rest =>
    match dumpString k, dumpValue v, dumpMembers (m :: rest) with
    | some a, some b, some c => some (a ++ ':' :: b ++ ',' :: c)
    | _, _, _ => none
end

/-- White space between tokens. -/
def skipWs : List Char → List Char
  | [] => []
  | c :: cs =>
    if c = ' ' ∨ c = '\t' ∨ c = '\n' ∨ c = '\r' then skipWs cs else c :: cs

/-- A byte order mark at the start of the input is passed over. -/
def skipBom : List Char → List Char
  | a :: b :: c :: rest =>
    if a.toNat = 0xEF ∧ b.toNat = 0xBB ∧ c.toNat = 0xBF then rest else a :: b :: c :: rest
  | cs => cs

/-- The value of a hexadecimal digit. -/
def hexVal (c : Char) : Option Nat :=
  let b := c.toNat
  if 48 ≤ b ∧ b ≤ 57 then some (b - 48)
  else if 65 ≤ b ∧ b ≤ 70 then some (b - 55)
  else if 97 ≤ b ∧ b ≤ 102 then some (b - 87)
  else none

/-- The four hexadecimal digits after a backslash and u. -/
def hex4 (a b c d : Char) : Option Nat :=
  match hexVal a, hexVal b, hexVal c, hexVal d with
  | some w, some x, some y, some z => some (((w * 16 + x) * 16 + y) * 16 + z)
  | _, _, _, _ => none

/-- The UTF-8 bytes of a code point. -/
def utf8Encode (cp : Nat) : List Char :=
  if cp < 0x80 then [Char.ofNat cp]
  else if cp < 0x800 then [Char.ofNat (0xC0 + cp / 64), Char.ofNat (0x80 + cp % 64)]
  else if cp < 0x10000 then
    [Char.ofNat (0xE0 + cp / 4096), Char.ofNat (0x80 + cp / 64 % 64), Char.ofNat (0x80 + cp % 64)]
  else
    [Char.ofNat (0xF0 + cp / 262144), Char.ofNat (0x80 + cp / 4096 % 64),
     Char.ofNat (0x80 + cp / 64 % 64), Char.ofNat (0x80 + cp % 64)]

/-- The rest of a string token after its opening quote: the bytes it stands for
and the input after the closing quote. -/
def scanString : Utf8 → List Char → Option (List Char × List Char)
  | _, [] => none
  | st, c :: cs =>
    if st.due ≠ 0 then
      match st.next c with
      | none => none
      | some st1 => (scanString st1 cs).map (fun r => (c :: r.1, r.2))
    else if c = '"' then some ([], cs)
    else if c = '\\' then
      match cs with
      | 'u' :: h1 :: h2 :: h3 :: h4 :: rest =>
        match hex4 h1 h2 h3 h4 with
        | none => none
        | some cp1 =>
          if 0xD800 ≤ cp1 ∧ cp1 ≤ 0xDBFF then
            match rest with
            | '\\' :: 'u' :: l1 :: l2 :: l3 :: l4 :: rest2 =>
              match hex4 l1 l2 l3 l4 with
              | none => none
              | some cp2 =>
                if 0xDC00 ≤ cp2 ∧ cp2 ≤ 0xDFFF then
                  (scanString st rest2).map (fun r =>
                    (utf8Encode (0x10000 + (cp1 - 0xD800) * 1024 + (cp2 - 0xDC00)) ++ r.1, r.2))
                else none
            | _ => none
          else if 0xDC00 ≤ cp1 ∧ cp1 ≤ 0xDFFF then none
          else (scanString st rest).map (fun r => (utf8Encode cp1 ++ r.1, r.2))
      | e :: rest =>
        let plain : Option Char :=
          if e = '"' then some '"'
          else if e = '\\' then some '\\'
          else if e = '/' then some '/'
          else if e = 'b' then some (Char.ofNat 8)
          else if e = 'f' then some (Char.ofNat 12)
          else if e = 'n' then some '\n'
          else if e = 'r' then some '\r'
          else if e = 't' then some '\t'
          else none
        match plain with
        | none => none
        | some b => (scanString st rest).map (fun r => (b :: r.1, r.2))
      | [] => none
    else if c.toNat < 0x20 then none
    else
      match st.next c with
      | none => none
      | some st1 => (scanString st1 cs).map (fun r => (c :: r.1, r.2))

/-- The leading decimal digits of the input, and the input after them. -/
def takeDigits : List Char → List Char × List Char
  | [] => ([], [])
  | c :: cs =>
    if 48 ≤ c.toNat ∧ c.toNat ≤ 57 then ((c :: (takeDigits cs).1), (takeDigits cs).2)
    else ([], c :: cs)

/-- The number written by decimal digits. -/
def digitsVal (ds : List Char) : Nat :=
  ds.foldl (fun n c => 10 * n + (c.toNat - 48)) 0

/-- The exponent of a number token, if there is one: its text and the input
after it; nothing when an exponent starts and has no digit. -/
def scanExponent (cs : List Char) : Option (List Char × List Char) :=
  match cs with
  | e :: rest =>
    if e = 'e' ∨ e = 'E' then
      match rest with
      | s :: rest1 =>
        if s = '+' ∨ s = '-' then
          (if (takeDigits rest1).1 = [] then none
           else some (e :: s :: (takeDigits rest1).1, (takeDigits rest1).2))
        else
          (if (takeDigits rest).1 = [] then none
           else some (e :: (takeDigits rest).1, (takeDigits rest).2))
      | [] => none
    else some ([], cs)
  | [] => some ([], cs)

/-- The fraction and exponent of a number token: their text and the input after
them. -/
def scanFraction (cs : List Char) : Option (List Char × List Char) :=
  match cs with
  | '.' :: rest =>
    if (takeDigits rest).1 = [] then none
    else (scanExponent (takeDigits rest).2).map (fun r => ('.' :: (takeDigits rest).1 ++ r.1, r.2))
  | _ => scanExponent cs

/-- A number token: unsigned and signed integers in the 64-bit ranges are
integers, every other number is a float. -/
def scanNumber (cs : List Char) : Option (Json × List Char) :=
  let neg : Bool := match cs with
    | '-' :: _ => true
    | _ => false
  let cs1 := if neg then cs.drop 1 else cs
  let whole : Option (List Char × List Char) :=
    match cs1 with
    | [] => none
    | c :: rest =>
      if c = '0' then some ([c], rest)
      else if 49 ≤ c.toNat ∧ c.toNat ≤ 57 then some (c :: (takeDigits rest).1, (takeDigits rest).2)
      else none
  match whole with
  | none => none
  | some (ds, rest) =>
    match scanFraction rest with
    | none => none
    | some (tail, rest1) =>
      let text := String.mk ((if neg then ['-'] else []) ++ ds ++ tail)
      if tail = [] ∧ !neg ∧ digitsVal ds < 2 ^ 64 then some (.int (digitsVal ds), rest1)
      else if tail = [] ∧ neg ∧ digitsVal ds ≤ 2 ^ 63 then some (.int (-(digitsVal ds : Int)), rest1)
      else some (.float text, rest1)

mutual
/-- One value at the start of the input, and the input after it.  The first
argument bounds the depth and the number of members read. -/
def parseValue : Nat → List Char → Option (Json × List Char)
  | 0, _ => none
  | fuel + 1, cs =>
    match skipWs cs with
    | [] => none
    | c :: rest =>
      if c = '\x7b' then
        match skipWs rest with
        | [] => none
        | d :: rest1 => if d = '\x7d' then some (.obj [], rest1) else parseMembers fuel [] (d :: rest1)
      else if c = '[' then
        match skipWs rest with
        | [] => none
        | d :: rest1 => if d = ']' then some (.arr [], rest1) else parseItems fuel [] (d :: rest1)
      else if c = '"' then (scanString Utf8.start rest).map (fun r => (.str (String.mk r.1), r.2))
      else
        match c :: rest with
        | 'n' :: 'u' :: 'l' :: 'l' :: rest1 => some (.null, rest1)
        | 't' :: 'r' :: 'u' :: 'e' :: rest1 => some (.bool true, rest1)
        | 'f' :: 'a' :: 'l' :: 's' :: 'e' :: rest1 => some (.bool false, rest1)
        | other => scanNumber other
/-- The items of an array after its opening bracket. -/
def parseItems : Nat → List Json → List Char → Option (Json × List Char)
  | 0, _, _ => none
  | fuel + 1, acc, cs =>
    match parseValue fuel cs with
    | none => none
    | some (v, rest) =>
      match skipWs rest with
      | [] => none
      | d :: rest1 =>
        if d = ',' then parseItems fuel (acc ++ [v]) rest1
        else if d = ']' then some (.arr (acc ++ [v]), rest1)
        else none
/-- The members of an object after its opening brace. -/
def parseMembers : Nat → List (String × Json) → List Char → Option (Json × List Char)
  | 0, _, _ => none
  | fuel + 1, acc, cs =>
    match skipWs cs with
    | [] => none
    | q :: rest =>
      if q = '"' then
        match scanString Utf8.start rest with
        | none => none
        | some (k, rest1) =>
          match skipWs rest1 with
          | [] => none
          | colon :: rest2 =>
            if colon = ':' then
              match parseValue fuel rest2 with
              | none => none
              | some (v, rest3) =>
                match skipWs rest3 with
                | [] => none
                | d :: rest4 =>
                  if d = ',' then parseMembers fuel (objSet (String.mk k) v acc) rest4
                  else if d = '\x7d' then some (.obj (objSet (String.mk k) v acc), rest4)
                  else none
            else none
      else none
end

/-- The value at the start of a text, read as `operator>>` reads it. -/
def parseText (text : String) : Option Json :=
  (parseValue (text.length + 1) (skipBom text.toList)).map (fun r => r.1)

/-- The JSON library with the reader and writer above.  What the library leaves
in the target when it raises part-way through a text, and what it has inserted
into the stream when it raises part-way through a value, is not computed here:
this reader leaves the empty object `FileLoad` starts from, this writer has
inserted nothing, and it raises only where `dump` has raised before it.  The
statements about `FileLoad` and `FileStore` are made for every `JsonLib`, so
they do not rest on these two choices. -/
def nlohmann : JsonLib where
  dump := fun j => (dumpValue j).map String.mk
  write := fun j =>
    match dumpValue j with
    | some out => .ok (String.mk out)
    | none => .error ""
  read := fun text =>
    match parseText text with
    | some j => .ok j
    | none => .error (Json.obj [])

/-! ## The datastore -/

/-- The class `Datastore`: the document and the path of its file. -/
structure Datastore where
  json_ : Json
  file_path_ : String

/-- The result of a member function: its outcome, the datastore and the file
system after it. -/
structure Step (α : Type) where
  out : Outcome α
  ds : Datastore
  fs : FileSys

namespace Datastore

/-- The constructor `Datastore::Datastore()`: the document is the empty
object. -/
def new : Datastore := { json_ := Json.obj [], file_path_ := "" }

/-- The member `Datastore::FileStore()`. -/
def FileStore (lib : JsonLib) (ds : Datastore) (fs : FileSys) : Step Error :=
  if !fs.opensForWrite ds.file_path_ then
    { out := .ret (MakeError (Stringer "not f.is_open; errno=" fs.errno)), ds := ds, fs := fs }
  else
    -- the stream is open: ios::trunc has emptied the file
    let fs0 := fs.put ds.file_path_ ""
    -- auto s = json_.dump();  stands before the try block
    match lib.dump ds.json_ with
    | none => { out := .threw "json::dump", ds := ds, fs := fs0 }
    | some _ =>
      match lib.write ds.json_ with
      | .error sent =>
        { out := .ret (MakeError "json dump failed"), ds := ds,
          fs := fs0.put ds.file_path_ (fs.lands ds.file_path_ sent) }
      | .ok text =>
        -- neither the state of the stream nor f.close() is looked at
        { out := .ret Error.nullerr, ds := ds,
          fs := fs0.put ds.file_path_ (fs.lands ds.file_path_ text) }

/-- The member `Datastore::FileLoad()`. -/
def FileLoad (lib : JsonLib) (ds : Datastore) (fs : FileSys) : Step Error :=
  let ds0 : Datastore := { ds with json_ := Json.obj [] }
  let f := fs.openIn ds0.file_path_
  if f.fail then
    let r := FileStore lib ds0 fs
    { r with out := r.out.map (fun e => WrapError e "f.fail and FileStore failed") }
  else if !f.good then
    { out := .ret (MakeError (Stringer "not f.good; errno=" fs.errno)), ds := ds0, fs := fs }
  else
    match lib.read (fs.bytes ds0.file_path_) with
    | .error left =>
      { out := .ret (MakeError "json load failed"), ds := { ds0 with json_ := left }, fs := fs }
    | .ok j =>
      { out := .ret Error.nullerr, ds := { ds0 with json_ := j }, fs := fs }

/-- The member `Datastore::Init(file_root)`. -/
def Init (lib : JsonLib) (file_root : String) (ds : Datastore) (fs : FileSys) : Step Error :=
  let r := FileLoad lib { ds with file_path_ := file_root ++ "/datastore" } fs
  { r with out := r.out.map PassError }

/-- The member `Datastore::Clear()`; the error `FileStore` returns is dropped. -/
def Clear (lib : JsonLib) (ds : Datastore) (fs : FileSys) : Step Unit :=
  let r := FileStore lib { ds with json_ := Json.obj [] } fs
  { r with out := r.out.map (fun _ => ()) }

/-- The member `Datastore::Set(in)`. -/
def Set (lib : JsonLib) (input : Json) (ds : Datastore) (fs : FileSys) : Step Error :=
  match ds.json_.update input with
  | (j, some what) => { out := .threw what, ds := { ds with json_ := j }, fs := fs }
  | (j, none) =>
    let r := FileStore lib { ds with json_ := j } fs
    { r with out := r.out.map PassError }

end Datastore

/-! ## The typed record layer

The class `UserData` (userdata.cpp) is not among the sources, only its tests
are.  Its fields, defaults, setters and getters are modelled from the
specification, over the datastore above. -/

/-- A point in time, in milliseconds. -/
abbrev DateTime := Int

/-- A signed span of time, in milliseconds. -/
abbrev Duration := Int

/-- Modelled from the spec: the text form of a timestamp and its reading
(datetime.cpp is not among the sources).  It is a parameter of the layer: the
statements on purchases hold for every text form, `isoCodec` below is the one
of the specification. -/
structure TimeCodec where
  ToISO8601 : DateTime → String
  FromISO8601 : String → Option DateTime

/-- What is read back from the text written for a timestamp. -/
def TimeCodec.reread (c : TimeCodec) (t : DateTime) : Option DateTime :=
  c.FromISO8601 (c.ToISO8601 t)

/-- An optional timestamp as read back from its stored form: an absent one is
read back absent, a present one through its text; nothing when the text is not
read. -/
def TimeCodec.rereadExpiry (c : TimeCodec) : Option DateTime → Option (Option DateTime)
  | none => some none
  | some t => (c.reread t).map some

/-- The decimal digits of a number, the first argument bounding their count. -/
def decimal : Nat → Nat → List Char
  | 0, _ => []
  | fuel + 1, n =>
    if n < 10 then [Char.ofNat (48 + n)]
    else decimal fuel (n / 10) ++ [Char.ofNat (48 + n % 10)]

/-- A text made of decimal digits only. -/
def allDigits (cs : List Char) : Bool :=
  cs.all (fun c => decide (48 ≤ c.toNat ∧ c.toNat ≤ 57))

/-- One more text form of timestamps, for evaluating the layer on concrete
records: the count of milliseconds in decimal, with a sign in front. -/
def epochCodec : TimeCodec where
  ToISO8601 := fun t =>
    String.mk ((if t < 0 then '-' else '+') :: decimal (t.natAbs + 1) t.natAbs)
  FromISO8601 := fun s =>
    match s.toList with
    | [] => none
    | sign :: ds =>
      if !allDigits ds then none
      else if sign = '-' then some (-(digitsVal ds : Int))
      else if sign = '+' then some (digitsVal ds : Int)
      else none

/-- Modelled from the spec: a purchase record, "{id, transaction_class,
distinguisher, server_time_expiry (optional timestamp), local_time_expiry
(optional timestamp, derived), authorization (optional opaque string)}". -/
structure Purchase where
  id : String
  transaction_class : String
  distinguisher : String
  server_time_expiry : Option DateTime
  local_time_expiry : Option DateTime
  authorization : Option String
  deriving Repr, DecidableEq

/-- Modelled from the spec: a price record, "{transaction_class, distinguisher,
price}". -/
structure PurchasePrice where
  transaction_class : String
  distinguisher : String
  price : Int
  deriving Repr, DecidableEq

/-- The member of an object for an optional field: none when the field is
absent. -/
def optMember (k : String) (v : Option Json) : List (String × Json) :=
  match v with
  | none => []
  | some j => [(k, j)]

/-- Every element of a JSON array converted, or nothing when one of them does
not convert. -/
def collect {α : Type} (f : Json → Option α) : List Json → Option (List α)
  | [] => some []
  | j :: js =>
    match f j, collect f js with
    | some a, some rest => some (a :: rest)
    | _, _ => none

/-- A required string member. -/
def strMember (j : Json) (k : String) : Option String :=
  match j.find k with
  | some (Json.str s) => some s
  | _ => none

/-- A required integer member. -/
def intMember (j : Json) (k : String) : Option Int :=
  match j.find k with
  | some (Json.int n) => some n
  | _ => none

/-- An optional string member: absent, present, or of the wrong shape. -/
def optStrMember (j : Json) (k : String) : Option (Option String) :=
  match j.find k with
  | none => some none
  | some (Json.str s) => some (some s)
  | some _ => none

/-- An optional timestamp member: absent, present, or of the wrong shape. -/
def optTimeMember (c : TimeCodec) (j : Json) (k : String) : Option (Option DateTime) :=
  match j.find k with
  | none => some none
  | some (Json.str s) => (c.FromISO8601 s).map some
  | some _ => none

/-- Modelled from the spec: the JSON form of a purchase, section 6: the three
strings always, the two expiries as ISO 8601 strings and the authorization when
present. -/
def Purchase.to_json (c : TimeCodec) (p : Purchase) : Json :=
  Json.obj
    (optMember "authorization" (p.authorization.map Json.str) ++
     [("distinguisher", Json.str p.distinguisher), ("id", Json.str p.id)] ++
     optMember "local_time_expiry" (p.local_time_expiry.map (fun t => Json.str (c.ToISO8601 t))) ++
     optMember "server_time_expiry" (p.server_time_expiry.map (fun t => Json.str (c.ToISO8601 t))) ++
     [("transaction_class", Json.str p.transaction_class)])

/-- Modelled from the spec: a purchase read from its JSON form, nothing when the
shape is not the expected one. -/
def Purchase.from_json (c : TimeCodec) (j : Json) : Option Purchase :=
  match strMember j "id", strMember j "transaction_class", strMember j "distinguisher",
    optTimeMember c j "server_time_expiry", optTimeMember c j "local_time_expiry",
    optStrMember j "authorization" with
  | some id, some tc, some d, some st, some lt, some a =>
    some { id := id, transaction_class := tc, distinguisher := d,
           server_time_expiry := st, local_time_expiry := lt, authorization := a }
  | _, _, _, _, _, _ => none

/-- A purchase as read back from its stored form: the strings as they were
written, the two expiries through their text; nothing when one of the texts is
not read. -/
def Purchase.reread (c : TimeCodec) (p : Purchase) : Option Purchase :=
  match c.rereadExpiry p.server_time_expiry, c.rereadExpiry p.local_time_expiry with
  | some st, some lt => some { p with server_time_expiry := st, local_time_expiry := lt }
  | _, _ => none

/-- Modelled from the spec: the JSON form of a price record, section 6. -/
def PurchasePrice.to_json (p : PurchasePrice) : Json :=
  Json.obj [("distinguisher", Json.str p.distinguisher), ("price", Json.int p.price),
            ("transaction_class", Json.str p.transaction_class)]

/-- Modelled from the spec: a price record read from its JSON form. -/
def PurchasePrice.from_json (j : Json) : Option PurchasePrice :=
  match strMember j "transaction_class", strMember j "distinguisher", intMember j "price" with
  | some tc, some d, some n => some { transaction_class := tc, distinguisher := d, price := n }
  | _, _, _ => none

namespace UserData

/-- Modelled from the spec: `server_time_diff`, "signed duration, default
zero". -/
def GetServerTimeDiff (ds : Datastore) : Duration :=
  match ds.json_.find "server_time_diff" with
  | some (Json.int n) => n
  | _ => 0

/-- Modelled from the spec: `purchases`, "ordered sequence of purchase records,
default empty". -/
def GetPurchases (c : TimeCodec) (ds : Datastore) : List Purchase :=
  match ds.json_.find "purchases" with
  | some (Json.arr items) => (collect (Purchase.from_json c) items).getD []
  | _ => []

/-- Modelled from the spec: time reconciliation.  "Whenever a purchase record
carrying a `server_time_expiry` is written ... and it does not already carry a
`local_time_expiry`, the layer computes `local_time_expiry = server_time_expiry -
server_time_diff` ... and stores both.  If a record supplies neither expiry,
both remain absent." -/
def UpdatePurchaseLocalTimeExpiry (diff : Duration) (p : Purchase) : Purchase :=
  match p.server_time_expiry, p.local_time_expiry with
  | some t, none => { p with local_time_expiry := some (t - diff) }
  | _, _ => p

/-- Modelled from the spec: `SetPurchases`, the records reconciled with the
offset stored at this moment and written as the `purchases` key. -/
def SetPurchases (lib : JsonLib) (c : TimeCodec) (v : List Purchase) (ds : Datastore)
    (fs : FileSys) : Step Error :=
  Datastore.Set lib
    (Json.obj [("purchases",
      Json.arr ((v.map (UpdatePurchaseLocalTimeExpiry (GetServerTimeDiff ds))).map
        (Purchase.to_json c)))]) ds fs

/-- Modelled from the spec: `AddPurchase(record)` "appends to the purchase
sequence unless a record with the same `id` already exists, in which case the
call is a no-op that still reports success". -/
def AddPurchase (lib : JsonLib) (c : TimeCodec) (r : Purchase) (ds : Datastore)
    (fs : FileSys) : Step Error :=
  if (GetPurchases c ds).any (fun p => decide (p.id = r.id)) then
    { out := .ret Error.nullerr, ds := ds, fs := fs }
  else SetPurchases lib c (GetPurchases c ds ++ [r]) ds fs

end UserData

/-! ## Concrete file systems -/

/-- A platform without faults: every path opens for writing and all bytes
reach the file. -/
def soundDisk (files : String → Option String) : FileSys :=
  { files := files, readFault := fun _ => {}, opensForWrite := fun _ => true,
    lands := fun _ text => text, errno := 0 }

/-- An empty file system on a platform without faults. -/
def emptyDisk : FileSys := soundDisk (fun _ => none)


/-- A disk that is full: an output stream opens, creating or emptying the file,
and none of the bytes inserted reaches the file. -/
def fullDisk : FileSys := { emptyDisk with lands := fun _ _ => "" }

/-- A platform without faults holding one file, the datastore of the directory
`/data`, with the given bytes. -/
def diskWith (text : String) : FileSys :=
  soundDisk (fun p => if p = "/data/datastore" then some text else none)

/-- A datastore just initialized on the empty directory `/data`. -/
def freshStore : Step Error := Datastore.Init nlohmann "/data" Datastore.new emptyDisk

/-- The datastore `freshStore` after two purchases have been stored. -/
def stockedStore : Step Error :=
  UserData.SetPurchases nlohmann epochCodec
    [{ id := "id1", transaction_class := "tc1", distinguisher := "d1",
       server_time_expiry := none, local_time_expiry := none, authorization := some "a1" },
     { id := "id2", transaction_class := "tc2", distinguisher := "d2",
       server_time_expiry := none, local_time_expiry := none, authorization := some "a2" }]
    freshStore.ds freshStore.fs

/-! ## Lemmas on objects and on the member functions -/

theorem objFind_objSet (k k1 : String) (v : Json) (m : List (String × Json)) :
    objFind k1 (objSet k v m) = if k1 = k then some v else objFind k1 m := by
  induction m with
  | nil =>
    by_cases h : k1 = k
    · simp [objSet, objFind, h]
    · have h2 : ¬ k = k1 := fun e => h e.symm
      simp [objSet, objFind, h, h2]
  | cons kv rest ih =>
    obtain ⟨k0, v0⟩ := kv
    by_cases h : k1 = k
    · subst h
      by_cases h0 : k0 = k1
      · simp [objSet, objFind, h0]
      · by_cases hlt : keyLt k1 k0 = true
        · simp [objSet, objFind, h0, hlt]
        · simp [objSet, objFind, h0, hlt, ih]
    · have h2 : ¬ k = k1 := fun e => h e.symm
      by_cases h0 : k0 = k
      · subst h0
        simp [objSet, objFind, h, h2]
      · by_cases hlt : keyLt k k0 = true
        · simp [objSet, objFind, h0, hlt, h, h2]
        · simp [objSet, objFind, h0, hlt, ih, h]

theorem objFind_eq_none_of_not_mem (k : String) (n : List (String × Json))
    (h : k ∉ n.map Prod.fst) : objFind k n = none := by
  induction n with
  | nil => rfl
  | cons kv rest ih =>
    obtain ⟨k0, v0⟩ := kv
    simp only [List.map_cons, List.mem_cons, not_or] at h
    have h0 : ¬ k0 = k := fun e => h.1 e.symm
    simp [objFind, h0, ih h.2]

theorem objFind_objUpdate (k : String) (m n : List (String × Json))
    (hn : (n.map Prod.fst).Nodup) :
    objFind k (objUpdate m n) =
      match objFind k n with
      | some v => some v
      | none => objFind k m := by
  induction n generalizing m with
  | nil => simp [objUpdate, objFind]
  | cons kv rest ih =>
    obtain ⟨k0, v0⟩ := kv
    simp only [List.map_cons, List.nodup_cons] at hn
    have step : objUpdate m ((k0, v0) :: rest) = objUpdate (objSet k0 v0 m) rest := by
      simp [objUpdate]
    rw [step, ih (objSet k0 v0 m) hn.2, objFind_objSet]
    by_cases h : k = k0
    · subst h
      rw [objFind_eq_none_of_not_mem k rest hn.1]
      simp [objFind]
    · have h0 : ¬ k0 = k := fun e => h e.symm
      simp [objFind, h, h0]

theorem FileStore_ds (lib : JsonLib) (ds : Datastore) (fs : FileSys) :
    (Datastore.FileStore lib ds fs).ds = ds := by
  unfold Datastore.FileStore
  split
  · rfl
  · split
    · rfl
    · split <;> rfl

theorem iostate_fail_of_good (s : iostate) (h : s.good = true) : s.fail = false := by
  cases hb : s.badbit <;> cases hf : s.failbit <;> simp_all [iostate.good, iostate.fail]

theorem succeeded_map_WrapError (o : Outcome Error) (msg : String) :
    (o.map (fun e => WrapError e msg)).succeeded = o.succeeded := by
  rcases o with ⟨e⟩ | w
  · cases e <;> rfl
  · rfl

theorem failed_map_WrapError (o : Outcome Error) (msg : String) :
    (o.map (fun e => WrapError e msg)).failed = o.failed := by
  rcases o with ⟨e⟩ | w
  · cases e <;> rfl
  · rfl

theorem map_PassError (o : Outcome Error) : o.map PassError = o := by
  rcases o with ⟨e⟩ | w <;> rfl

theorem FileLoad_of_fail (lib : JsonLib) (ds : Datastore) (fs : FileSys)
    (h : (fs.openIn ds.file_path_).fail = true) :
    Datastore.FileLoad lib ds fs =
      { Datastore.FileStore lib { ds with json_ := Json.obj [] } fs with
        out := (Datastore.FileStore lib { ds with json_ := Json.obj [] } fs).out.map
          (fun e => WrapError e "f.fail and FileStore failed") } := by
  unfold Datastore.FileLoad
  simp [h]

theorem FileLoad_of_good (lib : JsonLib) (ds : Datastore) (fs : FileSys)
    (h : (fs.openIn ds.file_path_).good = true) :
    Datastore.FileLoad lib ds fs =
      match lib.read (fs.bytes ds.file_path_) with
      | .error left =>
        { out := .ret (MakeError "json load failed"), ds := { ds with json_ := left }, fs := fs }
      | .ok j => { out := .ret Error.nullerr, ds := { ds with json_ := j }, fs := fs } := by
  unfold Datastore.FileLoad
  simp [h, iostate_fail_of_good _ h]

theorem FileLoad_fail_json (lib : JsonLib) (ds : Datastore) (fs : FileSys)
    (h : (fs.openIn ds.file_path_).fail = true) :
    (Datastore.FileLoad lib ds fs).ds.json_ = Json.obj [] := by
  rw [FileLoad_of_fail lib ds fs h]
  show (Datastore.FileStore lib { ds with json_ := Json.obj [] } fs).ds.json_ = _
  rw [FileStore_ds]

theorem Init_eq_FileLoad (lib : JsonLib) (file_root : String) (ds : Datastore) (fs : FileSys) :
    Datastore.Init lib file_root ds fs
      = Datastore.FileLoad lib { ds with file_path_ := file_root ++ "/datastore" } fs := by
  unfold Datastore.Init
  simp only [map_PassError]

theorem update_obj_obj (m n : List (String × Json)) :
    (Json.obj m).update (Json.obj n) = (Json.obj (objUpdate m n), none) := rfl

theorem update_ok_is_object (self j : Json) (h : (self.update j).2 = none) :
    (self.update j).1.is_object = true := by
  cases self <;> cases j <;> simp_all [Json.update, Json.is_null, Json.is_object]

theorem Set_succeeded_update (lib : JsonLib) (input : Json) (ds : Datastore) (fs : FileSys)
    (h : (Datastore.Set lib input ds fs).out.succeeded = true) :
    (ds.json_.update input).2 = none := by
  unfold Datastore.Set at h
  split at h
  · simp [Outcome.succeeded] at h
  · next j heq => rw [heq]

theorem Set_ds_json (lib : JsonLib) (input : Json) (ds : Datastore) (fs : FileSys) :
    (Datastore.Set lib input ds fs).ds.json_ = (ds.json_.update input).1 := by
  unfold Datastore.Set
  split
  · next j w heq => rw [heq]
  · next j heq => simp [FileStore_ds, heq]

/-! ## C1: `Set` is a shallow merge of the top-level keys -/

/-- C1.  For every document `d` (an object) and every JSON object `p` (its keys
distinct, as in any object), after `Datastore::Set(p)` the document in memory is
an object that holds under each key of `p` exactly the value `p` has there, and
under every other key what `d` held there (nothing when `d` had no such key).
The reader and writer of JSON text and the file system are arbitrary, so this
holds whether the `FileStore` that follows succeeds, fails or raises. -/
theorem C1_set_shallow_merge (lib : JsonLib) (fs : FileSys) (path : String)
    (d p : List (String × Json)) (hp : (p.map Prod.fst).Nodup) :
    ∃ m, (Datastore.Set lib (Json.obj p) { json_ := Json.obj d, file_path_ := path } fs).ds.json_
        = Json.obj m ∧
      (∀ k v, (Json.obj p).find k = some v → (Json.obj m).find k = some v) ∧
      (∀ k, (Json.obj p).find k = none → (Json.obj m).find k = (Json.obj d).find k) := by
  refine ⟨objUpdate d p, ?_, ?_, ?_⟩
  · rw [Set_ds_json]
    rfl
  · intro k v hk
    simp only [Json.find] at hk ⊢
    rw [objFind_objUpdate k d p hp, hk]
  · intro k hk
    simp only [Json.find] at hk ⊢
    rw [objFind_objUpdate k d p hp, hk]

/-- C1, at a concrete document: the nested object under `a` is replaced as a
whole (its member `x` is gone), `b` is kept, `c` is new, and the file system
refuses the write. -/
theorem C1_set_shallow_merge_witness :
    ∃ m, (Datastore.Set nlohmann
        (Json.obj [("a", Json.obj [("y", Json.int 2)]), ("c", Json.null)])
        { json_ := Json.obj [("a", Json.obj [("x", Json.int 1)]), ("b", Json.bool true)],
          file_path_ := "/data/datastore" }
        { emptyDisk with opensForWrite := fun _ => false }).ds.json_ = Json.obj m ∧
      (∀ k v, (Json.obj [("a", Json.obj [("y", Json.int 2)]), ("c", Json.null)]).find k = some v →
        (Json.obj m).find k = some v) ∧
      (∀ k, (Json.obj [("a", Json.obj [("y", Json.int 2)]), ("c", Json.null)]).find k = none →
        (Json.obj m).find k =
          (Json.obj [("a", Json.obj [("x", Json.int 1)]), ("b", Json.bool true)]).find k) :=
  C1_set_shallow_merge nlohmann { emptyDisk with opensForWrite := fun _ => false }
    "/data/datastore" [("a", Json.obj [("x", Json.int 1)]), ("b", Json.bool true)]
    [("a", Json.obj [("y", Json.int 2)]), ("c", Json.null)] (by decide)

/-! ## C4: a file that does not open for reading means a first run -/

/-- C4.  When the datastore file does not open for reading (`fail()` holds after
`open`, as for a file that is not there), `FileLoad`, and so `Init`, leaves the
empty object as the document, does to the file system what `FileStore` of the
empty object does, and returns success exactly when that `FileStore` returns
success and an error exactly when it returns an error.  So `Init` on a
directory without the file where the file can be created succeeds with the
empty document (given that the library writes the empty object without
raising), and `Init` on a directory where the file opens neither for reading
nor for writing returns an error. -/
theorem C4_unopenable_file_is_first_run (lib : JsonLib) (ds : Datastore) (fs : FileSys)
    (file_root : String) :
    ((fs.openIn ds.file_path_).fail = true →
      (Datastore.FileLoad lib ds fs).ds.json_ = Json.obj [] ∧
      (Datastore.FileLoad lib ds fs).fs
        = (Datastore.FileStore lib { ds with json_ := Json.obj [] } fs).fs ∧
      (Datastore.FileLoad lib ds fs).out.succeeded
        = (Datastore.FileStore lib { ds with json_ := Json.obj [] } fs).out.succeeded ∧
      (Datastore.FileLoad lib ds fs).out.failed
        = (Datastore.FileStore lib { ds with json_ := Json.obj [] } fs).out.failed) ∧
    ((fs.openIn (file_root ++ "/datastore")).fail = true →
      (Datastore.Init lib file_root ds fs).ds.json_ = Json.obj [] ∧
      (Datastore.Init lib file_root ds fs).fs
        = (Datastore.FileStore lib
            { json_ := Json.obj [], file_path_ := file_root ++ "/datastore" } fs).fs ∧
      (Datastore.Init lib file_root ds fs).out.succeeded
        = (Datastore.FileStore lib
            { json_ := Json.obj [], file_path_ := file_root ++ "/datastore" } fs).out.succeeded ∧
      (Datastore.Init lib file_root ds fs).out.failed
        = (Datastore.FileStore lib
            { json_ := Json.obj [], file_path_ := file_root ++ "/datastore" } fs).out.failed) ∧
    (fs.files (file_root ++ "/datastore") = none →
      fs.opensForWrite (file_root ++ "/datastore") = true →
      lib.dump (Json.obj []) ≠ none → (∃ text, lib.write (Json.obj []) = .ok text) →
      (Datastore.Init lib file_root ds fs).out = .ret Error.nullerr ∧
      (Datastore.Init lib file_root ds fs).ds.json_ = Json.obj []) ∧
    ((fs.openIn (file_root ++ "/datastore")).fail = true →
      fs.opensForWrite (file_root ++ "/datastore") = false →
      (Datastore.Init lib file_root ds fs).out.failed = true) := by
  refine ⟨?_, ?_, ?_, ?_⟩
  · intro h
    rw [FileLoad_of_fail lib ds fs h]
    refine ⟨?_, rfl, ?_, ?_⟩
    · show (Datastore.FileStore lib { ds with json_ := Json.obj [] } fs).ds.json_ = _
      rw [FileStore_ds]
    · exact succeeded_map_WrapError _ _
    · exact failed_map_WrapError _ _
  · intro h
    unfold Datastore.Init
    simp only [map_PassError]
    rw [FileLoad_of_fail lib _ fs h]
    refine ⟨?_, rfl, ?_, ?_⟩
    · show (Datastore.FileStore lib _ fs).ds.json_ = _
      rw [FileStore_ds]
    · exact succeeded_map_WrapError _ _
    · exact failed_map_WrapError _ _
  · intro hnone hw hdump hwrite
    obtain ⟨text, htext⟩ := hwrite
    have hfail : (fs.openIn (file_root ++ "/datastore")).fail = true := by
      simp [FileSys.openIn, hnone, iostate.fail]
    unfold Datastore.Init
    simp only [map_PassError]
    rw [FileLoad_of_fail lib _ fs hfail]
    cases hd : lib.dump (Json.obj []) with
    | none => exact absurd hd hdump
    | some t0 =>
      simp [Datastore.FileStore, hw, hd, htext, Outcome.map, WrapError]
  · intro h hw
    unfold Datastore.Init
    simp only [map_PassError]
    rw [FileLoad_of_fail lib _ fs h]
    simp [Datastore.FileStore, hw, Outcome.map, Outcome.failed, MakeError, WrapError,
      Error.isError]

/-- C4 on concrete directories: `Init` on an empty file system where files can
be created returns success with the empty document and leaves the text of the
empty object in the file; `Init` where the file opens neither for reading nor
for writing returns an error. -/
theorem C4_unopenable_file_is_first_run_witness :
    ((Datastore.Init nlohmann "/data" Datastore.new emptyDisk).out = .ret Error.nullerr ∧
      (Datastore.Init nlohmann "/data" Datastore.new emptyDisk).ds.json_ = Json.obj []) ∧
    (Datastore.Init nlohmann "/data" Datastore.new emptyDisk).fs.files "/data/datastore"
      = some "\x7b\x7d" ∧
    (Datastore.Init nlohmann "/tmp/a/b/c/d/f/g" Datastore.new
      { emptyDisk with opensForWrite := fun _ => false }).out.failed = true :=
  ⟨(C4_unopenable_file_is_first_run nlohmann Datastore.new emptyDisk "/data").2.2.1
      rfl rfl (by decide) ⟨"\x7b\x7d", rfl⟩,
    by decide,
    (C4_unopenable_file_is_first_run nlohmann Datastore.new
      { emptyDisk with opensForWrite := fun _ => false } "/tmp/a/b/c/d/f/g").2.2.2
      (by decide) rfl⟩

/-! ## C5: a file that does not parse -/

/-- C5.  When the file opens for reading (`good()` holds after `open`) and the
library raises while reading its bytes as JSON, `FileLoad` returns the error
"json load failed", not success, and the file system, so the bytes of the file,
is left as it was. -/
theorem C5_unparsable_file_is_an_error (lib : JsonLib) (ds : Datastore) (fs : FileSys)
    (left : Json) (hopen : (fs.openIn ds.file_path_).good = true)
    (hraise : lib.read (fs.bytes ds.file_path_) = .error left) :
    (Datastore.FileLoad lib ds fs).out = .ret (MakeError "json load failed") ∧
    (Datastore.FileLoad lib ds fs).out.succeeded = false ∧
    (Datastore.FileLoad lib ds fs).fs = fs := by
  rw [FileLoad_of_good lib ds fs hopen, hraise]
  exact ⟨rfl, rfl, rfl⟩

/-- C5 on an empty file: the file opens, the reader raises on no bytes at all,
`FileLoad` returns the error and the file stays empty. -/
theorem C5_unparsable_file_is_an_error_witness :
    (Datastore.FileLoad nlohmann { json_ := Json.obj [], file_path_ := "/data/datastore" }
      (soundDisk (fun p => if p = "/data/datastore" then some "" else none))).out
        = .ret (MakeError "json load failed") ∧
    (Datastore.FileLoad nlohmann { json_ := Json.obj [], file_path_ := "/data/datastore" }
      (soundDisk (fun p => if p = "/data/datastore" then some "" else none))).out.succeeded
        = false ∧
    (Datastore.FileLoad nlohmann { json_ := Json.obj [], file_path_ := "/data/datastore" }
      (soundDisk (fun p => if p = "/data/datastore" then some "" else none))).fs
        = soundDisk (fun p => if p = "/data/datastore" then some "" else none) :=
  C5_unparsable_file_is_an_error nlohmann
    { json_ := Json.obj [], file_path_ := "/data/datastore" }
    (soundDisk (fun p => if p = "/data/datastore" then some "" else none))
    (Json.obj []) (by decide) rfl

/-! ## C10: which values the document can be -/

/-- C10, refuted as stated: the file holds the text of an array, `Init` returns
success, and the document in memory is that array, not an object. -/
theorem C10_load_keeps_a_non_object :
    (Datastore.Init nlohmann "/data" Datastore.new
      (soundDisk (fun p => if p = "/data/datastore" then some "[1,2]" else none))).out
        = .ret Error.nullerr ∧
    (Datastore.Init nlohmann "/data" Datastore.new
      (soundDisk (fun p => if p = "/data/datastore" then some "[1,2]" else none))).ds.json_
        = Json.arr [Json.int 1, Json.int 2] ∧
    (Datastore.Init nlohmann "/data" Datastore.new
      (soundDisk (fun p => if p = "/data/datastore" then some "[1,2]" else none))).ds.json_.is_object
        = false := by
  refine ⟨by decide, rfl, by decide⟩

/-- C10, amended.  The document in memory is a JSON object after construction,
after `Clear`, after every `Set` that returns success, and after a `FileLoad` or
`Init` that found the file not opening for reading.  A `FileLoad` or `Init`
that returns success after opening the file leaves as the document exactly the
value the library read from the bytes of the file, whatever its kind: it is an
object exactly when that value is one. -/
theorem C10_document_kind (lib : JsonLib) (ds : Datastore) (fs : FileSys) (input : Json)
    (file_root : String) :
    Datastore.new.json_.is_object = true ∧
    (Datastore.Clear lib ds fs).ds.json_ = Json.obj [] ∧
    ((Datastore.Set lib input ds fs).out.succeeded = true →
      (Datastore.Set lib input ds fs).ds.json_.is_object = true) ∧
    ((fs.openIn ds.file_path_).fail = true →
      (Datastore.FileLoad lib ds fs).ds.json_ = Json.obj []) ∧
    ((fs.openIn (file_root ++ "/datastore")).fail = true →
      (Datastore.Init lib file_root ds fs).ds.json_ = Json.obj []) ∧
    ((fs.openIn ds.file_path_).fail = false →
      (Datastore.FileLoad lib ds fs).out.succeeded = true →
      ∃ j, lib.read (fs.bytes ds.file_path_) = .ok j ∧
        (Datastore.FileLoad lib ds fs).ds.json_ = j) ∧
    ((fs.openIn (file_root ++ "/datastore")).fail = false →
      (Datastore.Init lib file_root ds fs).out.succeeded = true →
      ∃ j, lib.read (fs.bytes (file_root ++ "/datastore")) = .ok j ∧
        (Datastore.Init lib file_root ds fs).ds.json_ = j) := by
  have load : ∀ d : Datastore, (fs.openIn d.file_path_).fail = false →
      (Datastore.FileLoad lib d fs).out.succeeded = true →
      ∃ j, lib.read (fs.bytes d.file_path_) = .ok j ∧
        (Datastore.FileLoad lib d fs).ds.json_ = j := by
    intro d hf hs
    unfold Datastore.FileLoad at hs ⊢
    simp only [hf] at hs ⊢
    by_cases hg : (fs.openIn d.file_path_).good = true
    · simp only [hg] at hs ⊢
      cases hr : lib.read (fs.bytes d.file_path_) with
      | error left => simp [hr, Outcome.succeeded, MakeError, Error.isError] at hs
      | ok j => exact ⟨j, rfl, by simp⟩
    · simp [hg, Outcome.succeeded, MakeError, Error.isError] at hs
  refine ⟨rfl, ?_, ?_, ?_, ?_, load ds, ?_⟩
  · show (Datastore.FileStore lib { ds with json_ := Json.obj [] } fs).ds.json_ = _
    rw [FileStore_ds]
  · intro h
    rw [Set_ds_json]
    exact update_ok_is_object _ _ (Set_succeeded_update lib input ds fs h)
  · intro h
    exact FileLoad_fail_json lib ds fs h
  · intro h
    rw [Init_eq_FileLoad]
    exact FileLoad_fail_json lib _ fs h
  · intro hf hs
    rw [Init_eq_FileLoad] at hs ⊢
    exact load _ hf hs

/-- C10 on concrete inputs: a `Set` of an object on a fresh datastore returns
success and leaves an object, and an `Init` that reads the text of an object
from the file leaves that object as the document. -/
theorem C10_document_kind_witness :
    (Datastore.Set nlohmann (Json.obj [("balance", Json.int 5)]) Datastore.new
      emptyDisk).ds.json_.is_object = true ∧
    ∃ j, nlohmann.read ((diskWith "\x7b\"balance\":5\x7d").bytes ("/data" ++ "/datastore"))
        = .ok j ∧
      (Datastore.Init nlohmann "/data" Datastore.new
        (diskWith "\x7b\"balance\":5\x7d")).ds.json_ = j :=
  ⟨(C10_document_kind nlohmann Datastore.new emptyDisk (Json.obj [("balance", Json.int 5)])
      "/data").2.2.1 (by decide),
   (C10_document_kind nlohmann Datastore.new (diskWith "\x7b\"balance\":5\x7d") Json.null
      "/data").2.2.2.2.2.2 (by decide) (by decide)⟩

/-! ## C3: a write that does not reach the file -/

theorem FileStore_success_whatever_lands (lib : JsonLib) (ds : Datastore) (fs : FileSys)
    (text : String) (hw : fs.opensForWrite ds.file_path_ = true)
    (hd : lib.dump ds.json_ ≠ none) (ht : lib.write ds.json_ = .ok text) :
    (Datastore.FileStore lib ds fs).out = .ret Error.nullerr ∧
    (Datastore.FileStore lib ds fs).fs.files ds.file_path_
      = some (fs.lands ds.file_path_ text) := by
  cases hdump : lib.dump ds.json_ with
  | none => exact absurd hdump hd
  | some t0 => simp [Datastore.FileStore, hw, hdump, ht, FileSys.put]

theorem FileStore_then_FileLoad (lib : JsonLib) (ds : Datastore) (fs : FileSys)
    (text : String) (hw : fs.opensForWrite ds.file_path_ = true)
    (hd : lib.dump ds.json_ ≠ none) (ht : lib.write ds.json_ = .ok text)
    (hl : fs.lands ds.file_path_ text = text)
    (hr : (fs.readFault ds.file_path_).good = true)
    (hback : lib.read text = .ok ds.json_) :
    (Datastore.FileLoad lib ds (Datastore.FileStore lib ds fs).fs).out = .ret Error.nullerr ∧
    (Datastore.FileLoad lib ds (Datastore.FileStore lib ds fs).fs).ds.json_ = ds.json_ := by
  have hfile := (FileStore_success_whatever_lands lib ds fs text hw hd ht).2
  rw [hl] at hfile
  have hrf : (Datastore.FileStore lib ds fs).fs.readFault = fs.readFault := by
    cases hdump : lib.dump ds.json_ with
    | none => exact absurd hdump hd
    | some t0 => simp [Datastore.FileStore, hw, hdump, ht, FileSys.put]
  have hgood : ((Datastore.FileStore lib ds fs).fs.openIn ds.file_path_).good = true := by
    simp [FileSys.openIn, hfile, hrf, hr]
  rw [FileLoad_of_good lib ds _ hgood]
  simp [FileSys.bytes, hfile, hback]

/-- C3 at the failing input: on a full disk `FileStore` of the document with the
one member `balance` returns success, the file is left empty, and the `FileLoad`
that follows on the same path returns the error "json load failed" and does not
give the document back. -/
theorem C3_lost_write_reported_as_success :
    (Datastore.FileStore nlohmann
      { json_ := Json.obj [("balance", Json.int 5)], file_path_ := "/data/datastore" }
      fullDisk).out = .ret Error.nullerr ∧
    (Datastore.FileStore nlohmann
      { json_ := Json.obj [("balance", Json.int 5)], file_path_ := "/data/datastore" }
      fullDisk).fs.files "/data/datastore" = some "" ∧
    (Datastore.FileLoad nlohmann
      { json_ := Json.obj [("balance", Json.int 5)], file_path_ := "/data/datastore" }
      (Datastore.FileStore nlohmann
        { json_ := Json.obj [("balance", Json.int 5)], file_path_ := "/data/datastore" }
        fullDisk).fs).out = .ret (MakeError "json load failed") ∧
    (Datastore.FileLoad nlohmann
      { json_ := Json.obj [("balance", Json.int 5)], file_path_ := "/data/datastore" }
      (Datastore.FileStore nlohmann
        { json_ := Json.obj [("balance", Json.int 5)], file_path_ := "/data/datastore" }
        fullDisk).fs).ds.json_.find "balance" = none := by
  refine ⟨by decide, by decide, by decide, rfl⟩

/-! ## C8: an exception while serializing -/

theorem FileStore_of_dump_raising (lib : JsonLib) (ds : Datastore) (fs : FileSys)
    (hw : fs.opensForWrite ds.file_path_ = true) (hd : lib.dump ds.json_ = none) :
    (Datastore.FileStore lib ds fs).out = .threw "json::dump" := by
  simp [Datastore.FileStore, hw, hd]

theorem FileStore_of_not_open (lib : JsonLib) (ds : Datastore) (fs : FileSys)
    (hw : fs.opensForWrite ds.file_path_ = false) :
    (Datastore.FileStore lib ds fs).out
      = .ret (MakeError (Stringer "not f.is_open; errno=" fs.errno)) ∧
    (Datastore.FileStore lib ds fs).fs = fs := by
  simp [Datastore.FileStore, hw]

/-- C8 at the failing input: the document holds a string that is not UTF-8 (the
single byte 0xFF), the file opens for writing, `json_.dump()` raises before the
try block is entered, and the exception leaves `FileStore` (and `Set` with it)
instead of an error value being returned; the file has been emptied. -/
theorem C8_dump_exception_escapes :
    nlohmann.dump (Json.obj [("last_transaction_id", Json.str "\xff")]) = none ∧
    (Datastore.FileStore nlohmann
      { json_ := Json.obj [("last_transaction_id", Json.str "\xff")],
        file_path_ := "/data/datastore" }
      (diskWith "\x7b\x7d")).out = .threw "json::dump" ∧
    (Datastore.Set nlohmann (Json.obj [("last_transaction_id", Json.str "\xff")])
      { json_ := Json.obj [], file_path_ := "/data/datastore" }
      (diskWith "\x7b\x7d")).out = .threw "json::dump" ∧
    (Datastore.FileStore nlohmann
      { json_ := Json.obj [("last_transaction_id", Json.str "\xff")],
        file_path_ := "/data/datastore" }
      (diskWith "\x7b\x7d")).fs.files "/data/datastore" = some "" := by
  refine ⟨by decide, by decide, by decide, by decide⟩

/-! ## Lemmas on the typed record layer -/

/-- C6.  When the stored purchases, as `GetPurchases` returns them, hold a
record with the id of `r`, `AddPurchase(r)` returns success and changes neither
the datastore nor the file system, so `GetPurchases` returns the same sequence
as before, whatever the other fields of `r` are. -/
theorem C6_add_purchase_same_id (lib : JsonLib) (c : TimeCodec) (r : Purchase)
    (ds : Datastore) (fs : FileSys)
    (h : ∃ p ∈ UserData.GetPurchases c ds, p.id = r.id) :
    (UserData.AddPurchase lib c r ds fs).out = .ret Error.nullerr ∧
    UserData.GetPurchases c (UserData.AddPurchase lib c r ds fs).ds
      = UserData.GetPurchases c ds ∧
    (UserData.AddPurchase lib c r ds fs).ds = ds ∧
    (UserData.AddPurchase lib c r ds fs).fs = fs := by
  have hany : (UserData.GetPurchases c ds).any (fun p => decide (p.id = r.id)) = true := by
    obtain ⟨p, hp, hid⟩ := h
    exact List.any_eq_true.mpr ⟨p, hp, by simp [hid]⟩
  unfold UserData.AddPurchase
  rw [if_pos hany]
  exact ⟨rfl, rfl, rfl, rfl⟩

/-- C6 on a store holding the purchases `id1` and `id2`: adding a record with
the id `id2` and other fields all different returns success and the two stored
records are read back as before. -/
theorem C6_add_purchase_same_id_witness :
    (UserData.AddPurchase nlohmann epochCodec
      { id := "id2", transaction_class := "other", distinguisher := "other",
        server_time_expiry := some 5, local_time_expiry := none, authorization := none }
      stockedStore.ds stockedStore.fs).out = .ret Error.nullerr ∧
    UserData.GetPurchases epochCodec (UserData.AddPurchase nlohmann epochCodec
      { id := "id2", transaction_class := "other", distinguisher := "other",
        server_time_expiry := some 5, local_time_expiry := none, authorization := none }
      stockedStore.ds stockedStore.fs).ds
      = [{ id := "id1", transaction_class := "tc1", distinguisher := "d1",
           server_time_expiry := none, local_time_expiry := none, authorization := some "a1" },
         { id := "id2", transaction_class := "tc2", distinguisher := "d2",
           server_time_expiry := none, local_time_expiry := none,
           authorization := some "a2" }] :=
  have h := C6_add_purchase_same_id nlohmann epochCodec
    { id := "id2", transaction_class := "other", distinguisher := "other",
      server_time_expiry := some 5, local_time_expiry := none, authorization := none }
    stockedStore.ds stockedStore.fs
    ⟨{ id := "id2", transaction_class := "tc2", distinguisher := "d2",
       server_time_expiry := none, local_time_expiry := none, authorization := some "a2" },
     by decide, rfl⟩
  ⟨h.1, h.2.1.trans (by decide)⟩

/-! ## C7: the local expiry derived at write time -/

end Psicash
